import Mathlib

/-!
# CPPRing: the I/O ring sample client

A shallow embedding of `src/IORing.Samples.CPPRing/CPPRing.cpp`.

The sample is a straight-line client of the Windows I/O ring API with a single
`Exit` label.  Every operating-system call is external, so a run is modelled as
the list of calls the function makes (with the arguments it passes and the value
each call returned), as a function of the outcomes of those calls.

* `HRESULT` values are signed 32-bit integers (`Int`), `SUCCEEDED hr` is `0 ≤ hr`.
* Handles and addresses are 64-bit unsigned values (`Nat`, reduced `% 2 ^ 64`
  where the program does arithmetic on them).
* The data-printing loop is the only loop; it is modelled with fuel.
-/

namespace CPPRing

/-! ## Data model -/

/-- Windows SDK enumerators and flag constants that the sample passes by name.
Their numeric values live in SDK headers; only their identity matters here. -/
inductive Win32Const
  | IORING_VERSION_1
  | IORING_CREATE_REQUIRED_FLAGS_NONE
  | IORING_CREATE_ADVISORY_FLAGS_NONE
  | GENERIC_READ
  | OPEN_EXISTING
  | FILE_ATTRIBUTE_NORMAL
  | MEM_COMMIT
  | PAGE_READWRITE
  | IOSQE_FLAGS_NONE
  | MEM_RELEASE
  | IORING_REF_RAW
  deriving DecidableEq, Repr

/-- The `IORING_CREATE_FLAGS` structure: the two fields the sample assigns. -/
structure IORING_CREATE_FLAGS where
  Required : Win32Const
  Advisory : Win32Const
  deriving DecidableEq, Repr

/-- The value built by `IORING_HANDLE_REF(hFile)`: a raw, non-owning file handle reference. -/
structure IORING_HANDLE_REF where
  Kind : Win32Const
  Handle : Nat
  deriving DecidableEq, Repr

/-- The value built by `IORING_BUFFER_REF(buffer)`: a raw, non-owning buffer reference. -/
structure IORING_BUFFER_REF where
  Kind : Win32Const
  Address : Nat
  deriving DecidableEq, Repr

/-- An argument passed to `printf` after the format string. -/
inductive PrintfArg
  | hresult (hr : Int)
  | dword (n : Nat)
  | pointer (v : Nat)
  deriving DecidableEq, Repr

/-- One observable step of a run: an external call with its arguments and the
value it returned, a pointer-sized memory read, or a `printf`.
`PopIoRingCompletion` is the I/O ring API call that collects a completion entry. -/
inductive Event
  | CreateIoRing (ioringVersion : Win32Const) (flags : IORING_CREATE_FLAGS)
      (submissionQueueSize completionQueueSize : Nat) (result : Int) (h : Nat)
  | CreateFile (lpFileName : String) (dwDesiredAccess : Win32Const) (dwShareMode : Nat)
      (lpSecurityAttributes : Nat) (dwCreationDisposition : Win32Const)
      (dwFlagsAndAttributes : Win32Const) (hTemplateFile : Nat) (ret : Nat)
  | GetLastError (ret : Nat)
  | VirtualAlloc (lpAddress dwSize : Nat) (flAllocationType flProtect : Win32Const) (ret : Nat)
  | BuildIoRingReadFile (ioRing : Nat) (fileRef : IORING_HANDLE_REF)
      (dataRef : IORING_BUFFER_REF) (numberOfBytesToRead fileOffset userData : Nat)
      (sqeFlags : Win32Const) (result : Int)
  | SubmitIoRing (ioRing waitOperations milliseconds : Nat) (result : Int)
      (submittedEntries : Nat)
  | PopIoRingCompletion (ioRing : Nat) (result : Int)
  | CloseIoRing (ioRing : Nat) (result : Int)
  | CloseHandle (hObject : Nat) (ret : Bool)
  | VirtualFree (lpAddress dwSize : Nat) (dwFreeType : Win32Const) (ret : Bool)
  | load (address size value : Nat)
  | printf (format : String) (args : List PrintfArg)
  deriving DecidableEq, Repr

/-- The outcomes of the external calls of one run.

`handle` is the value the local variable `handle` holds once `CreateIoRing` has
returned: the handle the call stored on success, and otherwise whatever the
uninitialised variable happens to contain. -/
structure Outcomes where
  createResult : Int
  handle : Nat
  hFile : Nat
  lastError : Nat
  buffer : Nat
  buildResult : Int
  submitResult : Int
  submittedEntries : Nat
  closeResult : Int
  closeHandleRet : Bool
  virtualFreeRet : Bool
  memory : Nat → Nat

/-- The `SUCCEEDED(hr)` test on an `HRESULT`: the code is non-negative. -/
def SUCCEEDED (hr : Int) : Bool := decide (0 ≤ hr)

/-- The `INVALID_HANDLE_VALUE` constant, `(HANDLE)-1`, as a 64-bit value. -/
def INVALID_HANDLE_VALUE : Nat := 2 ^ 64 - 1

/-- The initial value of `sizeToRead` (line 30). -/
def sizeToRead : Nat := 0x200

/-! ## `GetMessageForHresult` -/

/-- One lower-case hexadecimal digit. -/
def hexChar (d : Nat) : Char :=
  if d < 10 then Char.ofNat (48 + d) else Char.ofNat (87 + d)

/-- The `%x` conversion: the hexadecimal digits of `n`, most significant first,
without leading zeros (a single `0` for zero). -/
def toHex (n : Nat) : List Char :=
  if n < 16 then [hexChar n] else toHex (n / 16) ++ [hexChar (n % 16)]
termination_by n
decreasing_by omega

/-- The `%08x` conversion: `%x` left-padded with `0` to a minimum width of 8. -/
def format08x (n : Nat) : List Char :=
  List.replicate (8 - (toHex n).length) '0' ++ toHex n

/-- An `HRESULT` reinterpreted as the unsigned 32-bit value that `%x` prints. -/
def toUInt32 (hr : Int) : Nat := (hr % 2 ^ 32).toNat

/-- Function `GetMessageForHresult` (lines 14-19): `"Error 0x%08x: %s"` applied to `hr`
and to `_com_error(hr).ErrorMessage()`, the latter supplied as `errorMessage`. -/
def GetMessageForHresult (errorMessage : Int → String) (hr : Int) : String :=
  "Error 0x" ++ String.mk (format08x (toUInt32 hr)) ++ ": " ++ errorMessage hr

/-- The value of a lower-case hexadecimal digit character. -/
def hexValue (c : Char) : Nat :=
  if c.toNat < 58 then c.toNat - 48 else c.toNat - 87

/-- The number a string of hexadecimal digits denotes, most significant digit first. -/
def parseHex (cs : List Char) : Nat :=
  cs.foldl (fun acc c => 16 * acc + hexValue c) 0

/-! ## `IoRingKernelBase` -/

/-- The data-printing loop (lines 91-94):
`for (; (ULONG64)buffer < endOfBuffer; buffer++) printf("%p ", *buffer);`
started with `buffer` and run for at most `fuel` evaluations of the loop test.
Returns the events of the loop and the final value of `buffer`, or `none` when
the fuel runs out.  `buffer++` advances a `PVOID*` by one pointer, `ptrSize` bytes. -/
def printLoop (ptrSize : Nat) (memory : Nat → Nat) (endOfBuffer : Nat) :
    Nat → Nat → Option (List Event × Nat)
  | 0, _ => none
  | fuel + 1, buffer =>
    if buffer < endOfBuffer then
      (printLoop ptrSize memory endOfBuffer fuel ((buffer + ptrSize) % 2 ^ 64)).map
        (fun r => (Event.load buffer ptrSize (memory buffer)
                    :: Event.printf "%p " [PrintfArg.pointer (memory buffer)] :: r.1, r.2))
    else some ([], buffer)

/-- The code at the `Exit` label (lines 97-109), run with the current values of
the three local variables. -/
def exitLabel (os : Outcomes) (handle hFile buffer : Nat) : List Event :=
  (if handle ≠ 0 then [Event.CloseIoRing handle os.closeResult] else [])
  ++ (if hFile ≠ 0 then [Event.CloseHandle hFile os.closeHandleRet] else [])
  ++ (if buffer ≠ 0 then
        [Event.VirtualFree buffer 0 Win32Const.MEM_RELEASE os.virtualFreeRet] else [])

/-- Lines 34-63: ring creation, file open and buffer allocation, none of which
leaves the function early. -/
def acquire (os : Outcomes) : List Event :=
  [Event.CreateIoRing Win32Const.IORING_VERSION_1
      ⟨Win32Const.IORING_CREATE_REQUIRED_FLAGS_NONE, Win32Const.IORING_CREATE_ADVISORY_FLAGS_NONE⟩
      1 1 os.createResult os.handle]
  ++ (if SUCCEEDED os.createResult then []
      else [Event.printf "Failed creating IO ring handle: 0x%x\n"
              [PrintfArg.hresult os.createResult]])
  ++ [Event.CreateFile "C:\\Windows\\System32\\notepad.exe" Win32Const.GENERIC_READ 0 0
        Win32Const.OPEN_EXISTING Win32Const.FILE_ATTRIBUTE_NORMAL 0 os.hFile]
  ++ (if os.hFile = INVALID_HANDLE_VALUE then
        [Event.GetLastError os.lastError,
         Event.printf "Failed opening file handle: 0x%x\n" [PrintfArg.dword os.lastError]]
      else [])
  ++ [Event.VirtualAlloc 0 sizeToRead Win32Const.MEM_COMMIT Win32Const.PAGE_READWRITE os.buffer]

/-- The `BuildIoRingReadFile` call of lines 70-76. -/
def buildCall (os : Outcomes) : Event :=
  Event.BuildIoRingReadFile os.handle ⟨Win32Const.IORING_REF_RAW, os.hFile⟩
    ⟨Win32Const.IORING_REF_RAW, os.buffer⟩ sizeToRead 0 0 Win32Const.IOSQE_FLAGS_NONE
    os.buildResult

/-- The `SubmitIoRing` call of line 83. -/
def submitCall (os : Outcomes) : Event :=
  Event.SubmitIoRing os.handle 1 10000 os.submitResult os.submittedEntries

/-- Function `IoRingKernelBase` (lines 21-110): the events of a run under the outcomes
`os`, for a pointer size of `ptrSize` bytes, or `none` when the data-printing
loop does not finish within `fuel` evaluations of its test. -/
def IoRingKernelBase (ptrSize fuel : Nat) (os : Outcomes) : Option (List Event) :=
  if os.buffer = 0 then
    some (acquire os ++ [Event.printf "Failed to allocate memory\n" []]
      ++ exitLabel os os.handle os.hFile os.buffer)
  else if !SUCCEEDED os.buildResult then
    some (acquire os
      ++ [buildCall os,
          Event.printf "Failed building IO ring read file structure: 0x%x\n"
            [PrintfArg.hresult os.buildResult]]
      ++ exitLabel os os.handle os.hFile os.buffer)
  else if !SUCCEEDED os.submitResult then
    some (acquire os
      ++ [buildCall os, submitCall os,
          Event.printf "Failed submitting IO ring: 0x%x\n" [PrintfArg.hresult os.submitResult]]
      ++ exitLabel os os.handle os.hFile os.buffer)
  else
    (printLoop ptrSize os.memory ((os.buffer + sizeToRead) % 2 ^ 64) fuel os.buffer).map
      (fun r => acquire os
        ++ [buildCall os, submitCall os, Event.printf "Data from file:\n" []]
        ++ r.1 ++ [Event.printf "\n" []]
        ++ exitLabel os os.handle os.hFile r.2)

/-! ## Vocabulary for statements about runs -/

/-- The event is a `CreateIoRing` call. -/
def Event.isCreateIoRing : Event → Bool
  | Event.CreateIoRing _ _ _ _ _ _ => true
  | _ => false

/-- The event is a `VirtualAlloc` call. -/
def Event.isVirtualAlloc : Event → Bool
  | Event.VirtualAlloc _ _ _ _ _ => true
  | _ => false

/-- The event is a `BuildIoRingReadFile` call. -/
def Event.isBuild : Event → Bool
  | Event.BuildIoRingReadFile _ _ _ _ _ _ _ _ => true
  | _ => false

/-- The event is a `SubmitIoRing` call. -/
def Event.isSubmit : Event → Bool
  | Event.SubmitIoRing _ _ _ _ _ => true
  | _ => false

/-- The event is a `PopIoRingCompletion` call, the collection of a completion entry. -/
def Event.isPopCompletion : Event → Bool
  | Event.PopIoRingCompletion _ _ => true
  | _ => false

/-- The event is a `CloseIoRing` call. -/
def Event.isCloseIoRing : Event → Bool
  | Event.CloseIoRing _ _ => true
  | _ => false

/-- The event is a `CloseHandle` call. -/
def Event.isCloseHandle : Event → Bool
  | Event.CloseHandle _ _ => true
  | _ => false

/-- The event is a `VirtualFree` call. -/
def Event.isVirtualFree : Event → Bool
  | Event.VirtualFree _ _ _ _ => true
  | _ => false

/-- The event is a read of the buffer contents. -/
def Event.isLoad : Event → Bool
  | Event.load _ _ _ => true
  | _ => false

/-- The two events of the loop iteration that runs with `buffer = a`. -/
def iteration (ptrSize : Nat) (memory : Nat → Nat) (a : Nat) : List Event :=
  [Event.load a ptrSize (memory a), Event.printf "%p " [PrintfArg.pointer (memory a)]]

/-- The events of the first `n` loop iterations started at `b`. -/
def iterations (ptrSize : Nat) (memory : Nat → Nat) (b n : Nat) : List Event :=
  (List.range n).flatMap (fun i => iteration ptrSize memory (b + i * ptrSize))

/-- The step of the ring protocol an event belongs to, if any: open (0),
build (1), submit (2), reap (3), read of the transferred bytes (4), close (5). -/
def protocolStep : Event → Option Nat
  | Event.CreateIoRing _ _ _ _ _ _ => some 0
  | Event.BuildIoRingReadFile _ _ _ _ _ _ _ _ => some 1
  | Event.SubmitIoRing _ _ _ _ _ => some 2
  | Event.PopIoRingCompletion _ _ => some 3
  | Event.load _ _ _ => some 4
  | Event.CloseIoRing _ _ => some 5
  | _ => none

/-- The `HRESULT` codes a `printf` event passes to its format, none for other events. -/
def Event.printedHresults : Event → List Int
  | Event.printf _ args => args.filterMap (fun a => match a with
      | PrintfArg.hresult hr => some hr
      | _ => none)
  | _ => []

/-! ## Concrete outcomes -/

/-- A run in which every call succeeds: the ring handle is `0x1d8`, the file
handle `0x1dc`, the buffer is allocated at `0x10000` and holds zeros. -/
def allSucceed : Outcomes where
  createResult := 0
  handle := 0x1d8
  hFile := 0x1dc
  lastError := 0
  buffer := 0x10000
  buildResult := 0
  submitResult := 0
  submittedEntries := 1
  closeResult := 0
  closeHandleRet := true
  virtualFreeRet := true
  memory := fun _ => 0

/-- As `allSucceed`, but `CreateFile` fails with `ERROR_FILE_NOT_FOUND`. -/
def openFails : Outcomes :=
  { allSucceed with hFile := INVALID_HANDLE_VALUE, lastError := 2 }

/-- As `allSucceed`, but `CreateIoRing` fails with `E_ACCESSDENIED` (`0x80070005`)
and leaves the uninitialised `handle` holding `0xcccccccccccccccc`. -/
def createFails : Outcomes :=
  { allSucceed with createResult := -2147024891, handle := 0xcccccccccccccccc }

/-- As `allSucceed`, but `CloseIoRing` fails with `E_FAIL` (`0x80004005`). -/
def closeFails : Outcomes :=
  { allSucceed with closeResult := -2147467259 }

/-! ## Helper lemmas: the loop and the paths of a run -/

theorem range_flatMap_shift (f : Nat → List Event) (m : Nat) :
    (List.range (m + 1)).flatMap f = f 0 ++ (List.range m).flatMap (fun i => f (i + 1)) := by
  rw [List.range_succ_eq_map]
  simp [List.flatMap_cons, List.flatMap_map]

theorem printLoop_steps (p : Nat) (memory : Nat → Nat) (e : Nat) (he : e < 2 ^ 64) (hp : 0 < p) :
    ∀ (m fuel cur : Nat), cur + m * p = e → m < fuel →
      printLoop p memory e fuel cur = some (iterations p memory cur m, e) := by
  intro m
  induction m with
  | zero =>
    intro fuel cur hcur hfuel
    obtain ⟨f, rfl⟩ : ∃ f, fuel = f + 1 := ⟨fuel - 1, by omega⟩
    have : ¬ cur < e := by omega
    have hce : cur = e := by omega
    simp [printLoop, this, hce, iterations]
  | succ m ih =>
    intro fuel cur hcur hfuel
    obtain ⟨f, rfl⟩ : ∃ f, fuel = f + 1 := ⟨fuel - 1, by omega⟩
    have hmul : (m + 1) * p = m * p + p := by ring
    have hlt : cur < e := by omega
    have hmod : (cur + p) % 2 ^ 64 = cur + p := Nat.mod_eq_of_lt (by omega)
    have hrec := ih f (cur + p) (by omega) (by omega)
    rw [printLoop, if_pos hlt, hmod, hrec, iterations, iterations, range_flatMap_shift]
    have hfun : ∀ i, cur + (i + 1) * p = cur + p + i * p := by
      intro i
      ring
    simp [hfun]
    rfl

/-- The loop entered with an end address that wrapped around does not iterate. -/
theorem printLoop_wrapped (p : Nat) (memory : Nat → Nat) (fuel b : Nat) (hf : 0 < fuel)
    (hb : ¬ b + 512 < 2 ^ 64) :
    printLoop p memory ((b + sizeToRead) % 2 ^ 64) fuel b = some ([], b) := by
  obtain ⟨f, rfl⟩ : ∃ f, fuel = f + 1 := ⟨fuel - 1, by omega⟩
  have : ¬ b < (b + sizeToRead) % 2 ^ 64 := by
    simp only [sizeToRead]
    omega
  rw [printLoop, if_neg this]

/-- The loop over a buffer that does not wrap runs `512 / p` iterations. -/
theorem printLoop_buffer (p : Nat) (memory : Nat → Nat) (fuel b : Nat) (hp : p ∣ 512)
    (hf : 512 / p < fuel) (hb : b + 512 < 2 ^ 64) :
    printLoop p memory ((b + sizeToRead) % 2 ^ 64) fuel b
      = some (iterations p memory b (512 / p), b + 512) := by
  have hpos : 0 < p := Nat.pos_of_dvd_of_pos hp (by norm_num)
  have hmod : (b + sizeToRead) % 2 ^ 64 = b + 512 := by
    simp only [sizeToRead]
    omega
  rw [hmod]
  exact printLoop_steps p memory (b + 512) hb hpos (512 / p) fuel b
    (by rw [Nat.div_mul_cancel hp]) hf

/-- Case analysis on a run: a property holds of the events of every run as soon
as it holds on each of the five paths through `IoRingKernelBase`. -/
theorem run_cases (P : List Event → Prop) (p fuel : Nat) (os : Outcomes)
    (hp : p ∣ 512) (hf : 512 / p < fuel)
    (hAlloc : os.buffer = 0 →
      P (acquire os ++ [Event.printf "Failed to allocate memory\n" []]
        ++ exitLabel os os.handle os.hFile os.buffer))
    (hBuild : os.buffer ≠ 0 → SUCCEEDED os.buildResult = false →
      P (acquire os
        ++ [buildCall os,
            Event.printf "Failed building IO ring read file structure: 0x%x\n"
              [PrintfArg.hresult os.buildResult]]
        ++ exitLabel os os.handle os.hFile os.buffer))
    (hSubmit : os.buffer ≠ 0 → SUCCEEDED os.buildResult = true →
      SUCCEEDED os.submitResult = false →
      P (acquire os
        ++ [buildCall os, submitCall os,
            Event.printf "Failed submitting IO ring: 0x%x\n" [PrintfArg.hresult os.submitResult]]
        ++ exitLabel os os.handle os.hFile os.buffer))
    (hData : os.buffer ≠ 0 → SUCCEEDED os.buildResult = true →
      SUCCEEDED os.submitResult = true → os.buffer + 512 < 2 ^ 64 →
      P (acquire os
        ++ [buildCall os, submitCall os, Event.printf "Data from file:\n" []]
        ++ iterations p os.memory os.buffer (512 / p) ++ [Event.printf "\n" []]
        ++ exitLabel os os.handle os.hFile (os.buffer + 512)))
    (hWrap : os.buffer ≠ 0 → SUCCEEDED os.buildResult = true →
      SUCCEEDED os.submitResult = true → ¬ os.buffer + 512 < 2 ^ 64 →
      P (acquire os
        ++ [buildCall os, submitCall os, Event.printf "Data from file:\n" []]
        ++ [Event.printf "\n" []]
        ++ exitLabel os os.handle os.hFile os.buffer)) :
    ∃ t, IoRingKernelBase p fuel os = some t ∧ P t := by
  unfold IoRingKernelBase
  by_cases h0 : os.buffer = 0
  · exact ⟨_, if_pos h0, hAlloc h0⟩
  rw [if_neg h0]
  cases hb : SUCCEEDED os.buildResult
  · exact ⟨_, by simp, hBuild h0 hb⟩
  cases hs : SUCCEEDED os.submitResult
  · exact ⟨_, by simp, hSubmit h0 hb hs⟩
  by_cases hw : os.buffer + 512 < 2 ^ 64
  · refine ⟨_, ?_, hData h0 hb hs hw⟩
    rw [printLoop_buffer p os.memory fuel os.buffer hp hf hw]
    simp
  · refine ⟨_, ?_, hWrap h0 hb hs hw⟩
    rw [printLoop_wrapped p os.memory fuel os.buffer (Nat.lt_of_le_of_lt (Nat.zero_le _) hf) hw]
    simp

theorem mem_iterations (p : Nat) (memory : Nat → Nat) (b n : Nat) (e : Event) :
    e ∈ iterations p memory b n ↔
      ∃ i, i < n ∧ (e = Event.load (b + i * p) p (memory (b + i * p))
        ∨ e = Event.printf "%p " [PrintfArg.pointer (memory (b + i * p))]) := by
  simp [iterations, iteration, List.mem_flatMap]

theorem mem_acquire (os : Outcomes) (e : Event) (h : e ∈ acquire os) :
    e = Event.CreateIoRing Win32Const.IORING_VERSION_1
          ⟨Win32Const.IORING_CREATE_REQUIRED_FLAGS_NONE,
            Win32Const.IORING_CREATE_ADVISORY_FLAGS_NONE⟩ 1 1 os.createResult os.handle
      ∨ e = Event.printf "Failed creating IO ring handle: 0x%x\n"
              [PrintfArg.hresult os.createResult]
      ∨ e = Event.CreateFile "C:\\Windows\\System32\\notepad.exe" Win32Const.GENERIC_READ 0 0
              Win32Const.OPEN_EXISTING Win32Const.FILE_ATTRIBUTE_NORMAL 0 os.hFile
      ∨ e = Event.GetLastError os.lastError
      ∨ e = Event.printf "Failed opening file handle: 0x%x\n" [PrintfArg.dword os.lastError]
      ∨ e = Event.VirtualAlloc 0 sizeToRead Win32Const.MEM_COMMIT Win32Const.PAGE_READWRITE
              os.buffer := by
  simp only [acquire, List.mem_append, List.mem_singleton] at h
  rcases h with (((h | h) | h) | h) | h
  · exact Or.inl h
  · split_ifs at h
    · simp at h
    · simp only [List.mem_singleton] at h
      exact Or.inr (Or.inl h)
  · exact Or.inr (Or.inr (Or.inl h))
  · split_ifs at h
    · simp only [List.mem_cons, List.mem_singleton, List.not_mem_nil, or_false] at h
      rcases h with h | h
      · exact Or.inr (Or.inr (Or.inr (Or.inl h)))
      · exact Or.inr (Or.inr (Or.inr (Or.inr (Or.inl h))))
    · simp at h
  · exact Or.inr (Or.inr (Or.inr (Or.inr (Or.inr h))))

theorem mem_exitLabel (os : Outcomes) (handle hFile buffer : Nat) (e : Event) :
    e ∈ exitLabel os handle hFile buffer ↔
      (handle ≠ 0 ∧ e = Event.CloseIoRing handle os.closeResult)
      ∨ (hFile ≠ 0 ∧ e = Event.CloseHandle hFile os.closeHandleRet)
      ∨ (buffer ≠ 0 ∧ e = Event.VirtualFree buffer 0 Win32Const.MEM_RELEASE os.virtualFreeRet) := by
  simp only [exitLabel, List.mem_append]
  split_ifs <;> simp_all [or_assoc]

theorem filter_isCloseIoRing_exitLabel (os : Outcomes) (handle hFile buffer : Nat) :
    (exitLabel os handle hFile buffer).filter Event.isCloseIoRing
      = if handle ≠ 0 then [Event.CloseIoRing handle os.closeResult] else [] := by
  simp only [exitLabel]
  split_ifs <;> rfl

/-- A list on which a classifier is false everywhere contributes nothing to a filter. -/
theorem filter_nil_of_forall (q : Event → Bool) (l : List Event) (h : ∀ e ∈ l, q e = false) :
    l.filter q = [] := by
  rw [List.filter_eq_nil_iff]
  intro e he
  simp [h e he]

theorem pairwise_exitLabel (os : Outcomes) (handle hFile buffer : Nat) :
    (exitLabel os handle hFile buffer).Pairwise (fun a b => a.isCloseIoRing = true →
      b.isBuild = false ∧ b.isSubmit = false ∧ b.isCloseIoRing = false) := by
  simp only [exitLabel]
  split_ifs <;> simp [Event.isCloseIoRing, Event.isBuild, Event.isSubmit]

/-- A trace whose body has no `CloseIoRing` call and which ends with the `Exit`
code has at most one such call, with no build or submit after it. -/
theorem close_last_of_body (os : Outcomes) (body : List Event) (handle hFile buffer : Nat)
    (hbody : ∀ e ∈ body, e.isCloseIoRing = false) :
    ((body ++ exitLabel os handle hFile buffer).filter Event.isCloseIoRing
        = if handle ≠ 0 then [Event.CloseIoRing handle os.closeResult] else [])
      ∧ (body ++ exitLabel os handle hFile buffer).Pairwise (fun a b =>
          a.isCloseIoRing = true →
            b.isBuild = false ∧ b.isSubmit = false ∧ b.isCloseIoRing = false) := by
  constructor
  · rw [List.filter_append, filter_nil_of_forall _ body hbody, filter_isCloseIoRing_exitLabel]
    rfl
  · rw [List.pairwise_append]
    refine ⟨?_, pairwise_exitLabel os handle hFile buffer, ?_⟩
    · apply List.pairwise_of_forall_mem_list
      intro a ha b _ hc
      rw [hbody a ha] at hc
      cases hc
    · intro a ha b _ hc
      rw [hbody a ha] at hc
      cases hc

theorem acquire_not_close (os : Outcomes) (e : Event) (h : e ∈ acquire os) :
    e.isCloseIoRing = false := by
  rcases mem_acquire os e h with h | h | h | h | h | h <;> rw [h] <;> rfl

theorem iterations_not_close (p : Nat) (memory : Nat → Nat) (b n : Nat) (e : Event)
    (h : e ∈ iterations p memory b n) : e.isCloseIoRing = false := by
  obtain ⟨i, _, h | h⟩ := (mem_iterations p memory b n e).1 h <;> rw [h] <;> rfl

/-! ### What each part of a run contributes to the calls of one kind -/

theorem filter_isCreateIoRing_acquire (os : Outcomes) :
    (acquire os).filter Event.isCreateIoRing
      = [Event.CreateIoRing Win32Const.IORING_VERSION_1
          ⟨Win32Const.IORING_CREATE_REQUIRED_FLAGS_NONE,
            Win32Const.IORING_CREATE_ADVISORY_FLAGS_NONE⟩ 1 1 os.createResult os.handle] := by
  simp only [acquire]
  split_ifs <;> rfl

theorem filter_isVirtualAlloc_acquire (os : Outcomes) :
    (acquire os).filter Event.isVirtualAlloc
      = [Event.VirtualAlloc 0 sizeToRead Win32Const.MEM_COMMIT Win32Const.PAGE_READWRITE
          os.buffer] := by
  simp only [acquire]
  split_ifs <;> rfl

theorem filter_isBuild_acquire (os : Outcomes) : (acquire os).filter Event.isBuild = [] := by
  simp only [acquire]
  split_ifs <;> rfl

theorem filter_isSubmit_acquire (os : Outcomes) : (acquire os).filter Event.isSubmit = [] := by
  simp only [acquire]
  split_ifs <;> rfl

theorem filter_isLoad_acquire (os : Outcomes) : (acquire os).filter Event.isLoad = [] := by
  simp only [acquire]
  split_ifs <;> rfl

theorem filter_isCreateIoRing_exitLabel (os : Outcomes) (handle hFile buffer : Nat) :
    (exitLabel os handle hFile buffer).filter Event.isCreateIoRing = [] := by
  simp only [exitLabel]
  split_ifs <;> rfl

theorem filter_isVirtualAlloc_exitLabel (os : Outcomes) (handle hFile buffer : Nat) :
    (exitLabel os handle hFile buffer).filter Event.isVirtualAlloc = [] := by
  simp only [exitLabel]
  split_ifs <;> rfl

theorem filter_isBuild_exitLabel (os : Outcomes) (handle hFile buffer : Nat) :
    (exitLabel os handle hFile buffer).filter Event.isBuild = [] := by
  simp only [exitLabel]
  split_ifs <;> rfl

theorem filter_isSubmit_exitLabel (os : Outcomes) (handle hFile buffer : Nat) :
    (exitLabel os handle hFile buffer).filter Event.isSubmit = [] := by
  simp only [exitLabel]
  split_ifs <;> rfl

theorem filter_isLoad_exitLabel (os : Outcomes) (handle hFile buffer : Nat) :
    (exitLabel os handle hFile buffer).filter Event.isLoad = [] := by
  simp only [exitLabel]
  split_ifs <;> rfl

theorem filter_isCreateIoRing_iterations (p : Nat) (memory : Nat → Nat) (b n : Nat) :
    (iterations p memory b n).filter Event.isCreateIoRing = [] := by
  apply filter_nil_of_forall
  intro e h
  obtain ⟨i, _, h | h⟩ := (mem_iterations p memory b n e).1 h <;> rw [h] <;> rfl

theorem filter_isVirtualAlloc_iterations (p : Nat) (memory : Nat → Nat) (b n : Nat) :
    (iterations p memory b n).filter Event.isVirtualAlloc = [] := by
  apply filter_nil_of_forall
  intro e h
  obtain ⟨i, _, h | h⟩ := (mem_iterations p memory b n e).1 h <;> rw [h] <;> rfl

theorem filter_isBuild_iterations (p : Nat) (memory : Nat → Nat) (b n : Nat) :
    (iterations p memory b n).filter Event.isBuild = [] := by
  apply filter_nil_of_forall
  intro e h
  obtain ⟨i, _, h | h⟩ := (mem_iterations p memory b n e).1 h <;> rw [h] <;> rfl

theorem filter_isSubmit_iterations (p : Nat) (memory : Nat → Nat) (b n : Nat) :
    (iterations p memory b n).filter Event.isSubmit = [] := by
  apply filter_nil_of_forall
  intro e h
  obtain ⟨i, _, h | h⟩ := (mem_iterations p memory b n e).1 h <;> rw [h] <;> rfl

theorem header_not_mem_iterations (p : Nat) (memory : Nat → Nat) (b n : Nat) :
    Event.printf "Data from file:\n" [] ∉ iterations p memory b n := by
  intro h
  obtain ⟨i, _, h | h⟩ := (mem_iterations p memory b n _).1 h <;> simp at h

theorem header_not_mem_acquire (os : Outcomes) :
    Event.printf "Data from file:\n" [] ∉ acquire os := by
  intro h
  rcases mem_acquire os _ h with h | h | h | h | h | h <;> simp at h

theorem header_not_mem_exitLabel (os : Outcomes) (handle hFile buffer : Nat) :
    Event.printf "Data from file:\n" [] ∉ exitLabel os handle hFile buffer := by
  intro h
  rcases (mem_exitLabel os handle hFile buffer _).1 h with ⟨_, h⟩ | ⟨_, h⟩ | ⟨_, h⟩ <;> cases h

theorem create_warning_mem_acquire (os : Outcomes) (h : SUCCEEDED os.createResult = false) :
    Event.printf "Failed creating IO ring handle: 0x%x\n" [PrintfArg.hresult os.createResult]
      ∈ acquire os := by
  simp [acquire, h]

theorem open_warning_mem_acquire (os : Outcomes) (h : os.hFile = INVALID_HANDLE_VALUE) :
    Event.printf "Failed opening file handle: 0x%x\n" [PrintfArg.dword os.lastError]
      ∈ acquire os := by
  simp [acquire, h]

theorem filter_isCloseIoRing_acquire (os : Outcomes) :
    (acquire os).filter Event.isCloseIoRing = [] := by
  simp only [acquire]
  split_ifs <;> rfl

theorem filter_isCloseHandle_acquire (os : Outcomes) :
    (acquire os).filter Event.isCloseHandle = [] := by
  simp only [acquire]
  split_ifs <;> rfl

theorem filter_isVirtualFree_acquire (os : Outcomes) :
    (acquire os).filter Event.isVirtualFree = [] := by
  simp only [acquire]
  split_ifs <;> rfl

theorem filter_isPopCompletion_acquire (os : Outcomes) :
    (acquire os).filter Event.isPopCompletion = [] := by
  simp only [acquire]
  split_ifs <;> rfl

theorem filter_isCloseHandle_exitLabel (os : Outcomes) (handle hFile buffer : Nat) :
    (exitLabel os handle hFile buffer).filter Event.isCloseHandle
      = if hFile ≠ 0 then [Event.CloseHandle hFile os.closeHandleRet] else [] := by
  simp only [exitLabel]
  split_ifs <;> rfl

theorem filter_isVirtualFree_exitLabel (os : Outcomes) (handle hFile buffer : Nat) :
    (exitLabel os handle hFile buffer).filter Event.isVirtualFree
      = if buffer ≠ 0 then
          [Event.VirtualFree buffer 0 Win32Const.MEM_RELEASE os.virtualFreeRet] else [] := by
  simp only [exitLabel]
  split_ifs <;> rfl

theorem filter_isPopCompletion_exitLabel (os : Outcomes) (handle hFile buffer : Nat) :
    (exitLabel os handle hFile buffer).filter Event.isPopCompletion = [] := by
  simp only [exitLabel]
  split_ifs <;> rfl

theorem filter_isCloseIoRing_iterations (p : Nat) (memory : Nat → Nat) (b n : Nat) :
    (iterations p memory b n).filter Event.isCloseIoRing = [] := by
  apply filter_nil_of_forall
  intro e h
  obtain ⟨i, _, h | h⟩ := (mem_iterations p memory b n e).1 h <;> rw [h] <;> rfl

theorem filter_isCloseHandle_iterations (p : Nat) (memory : Nat → Nat) (b n : Nat) :
    (iterations p memory b n).filter Event.isCloseHandle = [] := by
  apply filter_nil_of_forall
  intro e h
  obtain ⟨i, _, h | h⟩ := (mem_iterations p memory b n e).1 h <;> rw [h] <;> rfl

theorem filter_isVirtualFree_iterations (p : Nat) (memory : Nat → Nat) (b n : Nat) :
    (iterations p memory b n).filter Event.isVirtualFree = [] := by
  apply filter_nil_of_forall
  intro e h
  obtain ⟨i, _, h | h⟩ := (mem_iterations p memory b n e).1 h <;> rw [h] <;> rfl

theorem filter_isPopCompletion_iterations (p : Nat) (memory : Nat → Nat) (b n : Nat) :
    (iterations p memory b n).filter Event.isPopCompletion = [] := by
  apply filter_nil_of_forall
  intro e h
  obtain ⟨i, _, h | h⟩ := (mem_iterations p memory b n e).1 h <;> rw [h] <;> rfl

/-- The calls of a run, kind by kind, as a function of the outcomes. -/
theorem run_calls (p fuel : Nat) (os : Outcomes) (hp : p ∣ 512) (hf : 512 / p < fuel) :
    ∃ t, IoRingKernelBase p fuel os = some t ∧
      ((t.filter Event.isCreateIoRing
          = [Event.CreateIoRing Win32Const.IORING_VERSION_1
              ⟨Win32Const.IORING_CREATE_REQUIRED_FLAGS_NONE,
                Win32Const.IORING_CREATE_ADVISORY_FLAGS_NONE⟩ 1 1 os.createResult os.handle])
        ∧ (t.filter Event.isVirtualAlloc
            = [Event.VirtualAlloc 0 sizeToRead Win32Const.MEM_COMMIT Win32Const.PAGE_READWRITE
                os.buffer])
        ∧ (t.filter Event.isBuild = if os.buffer ≠ 0 then [buildCall os] else [])
        ∧ (t.filter Event.isSubmit
            = if os.buffer ≠ 0 ∧ SUCCEEDED os.buildResult = true then [submitCall os] else [])
        ∧ (t.filter Event.isPopCompletion = [])
        ∧ (t.filter Event.isCloseIoRing
            = if os.handle ≠ 0 then [Event.CloseIoRing os.handle os.closeResult] else [])
        ∧ (t.filter Event.isCloseHandle
            = if os.hFile ≠ 0 then [Event.CloseHandle os.hFile os.closeHandleRet] else [])
        ∧ (t.filter Event.isVirtualFree
            = if os.buffer = 0 then []
              else [Event.VirtualFree
                      (if SUCCEEDED os.buildResult = true ∧ SUCCEEDED os.submitResult = true
                          ∧ os.buffer + 512 < 2 ^ 64
                        then os.buffer + 512 else os.buffer)
                      0 Win32Const.MEM_RELEASE os.virtualFreeRet])) := by
  apply run_cases _ p fuel os hp hf
  all_goals
    intros
    simp only [List.filter_append, filter_isCreateIoRing_acquire, filter_isVirtualAlloc_acquire,
      filter_isBuild_acquire, filter_isSubmit_acquire, filter_isPopCompletion_acquire,
      filter_isCloseIoRing_acquire, filter_isCloseHandle_acquire, filter_isVirtualFree_acquire,
      filter_isCreateIoRing_exitLabel, filter_isVirtualAlloc_exitLabel, filter_isBuild_exitLabel,
      filter_isSubmit_exitLabel, filter_isPopCompletion_exitLabel,
      filter_isCloseIoRing_exitLabel, filter_isCloseHandle_exitLabel,
      filter_isVirtualFree_exitLabel, filter_isCreateIoRing_iterations,
      filter_isVirtualAlloc_iterations, filter_isBuild_iterations, filter_isSubmit_iterations,
      filter_isPopCompletion_iterations, filter_isCloseIoRing_iterations,
      filter_isCloseHandle_iterations, filter_isVirtualFree_iterations,
      List.append_nil, List.nil_append]
    and_intros
  all_goals
    simp [buildCall, submitCall, Event.isCreateIoRing, Event.isVirtualAlloc, Event.isBuild,
      Event.isSubmit, Event.isPopCompletion, Event.isCloseIoRing, Event.isCloseHandle,
      Event.isVirtualFree, *]
  all_goals
    split_ifs <;> omega

theorem mem_acquire_iff (os : Outcomes) (e : Event) :
    e ∈ acquire os ↔
      e = Event.CreateIoRing Win32Const.IORING_VERSION_1
          ⟨Win32Const.IORING_CREATE_REQUIRED_FLAGS_NONE,
            Win32Const.IORING_CREATE_ADVISORY_FLAGS_NONE⟩ 1 1 os.createResult os.handle
      ∨ (SUCCEEDED os.createResult = false
          ∧ e = Event.printf "Failed creating IO ring handle: 0x%x\n"
              [PrintfArg.hresult os.createResult])
      ∨ e = Event.CreateFile "C:\\Windows\\System32\\notepad.exe" Win32Const.GENERIC_READ 0 0
              Win32Const.OPEN_EXISTING Win32Const.FILE_ATTRIBUTE_NORMAL 0 os.hFile
      ∨ (os.hFile = INVALID_HANDLE_VALUE ∧ e = Event.GetLastError os.lastError)
      ∨ (os.hFile = INVALID_HANDLE_VALUE
          ∧ e = Event.printf "Failed opening file handle: 0x%x\n" [PrintfArg.dword os.lastError])
      ∨ e = Event.VirtualAlloc 0 sizeToRead Win32Const.MEM_COMMIT Win32Const.PAGE_READWRITE
              os.buffer := by
  simp only [acquire, List.mem_append, List.mem_singleton]
  cases SUCCEEDED os.createResult <;> by_cases h : os.hFile = INVALID_HANDLE_VALUE <;>
    simp [h, or_assoc]

theorem printedHresults_acquire (os : Outcomes) :
    ∀ e ∈ acquire os, ∀ hr ∈ e.printedHresults,
      hr = os.createResult ∧ SUCCEEDED os.createResult = false := by
  intro e he hr hhr
  rcases (mem_acquire_iff os e).1 he with h | ⟨hc, h⟩ | h | ⟨_, h⟩ | ⟨_, h⟩ | h <;>
    rw [h] at hhr <;> simp [Event.printedHresults] at hhr
  exact ⟨hhr, hc⟩

theorem printedHresults_exitLabel (os : Outcomes) (handle hFile buffer : Nat) :
    ∀ e ∈ exitLabel os handle hFile buffer, e.printedHresults = [] := by
  intro e he
  rcases (mem_exitLabel os handle hFile buffer e).1 he with ⟨_, h⟩ | ⟨_, h⟩ | ⟨_, h⟩ <;>
    rw [h] <;> rfl

theorem printedHresults_iterations (p : Nat) (memory : Nat → Nat) (b n : Nat) :
    ∀ e ∈ iterations p memory b n, e.printedHresults = [] := by
  intro e he
  obtain ⟨i, _, h | h⟩ := (mem_iterations p memory b n e).1 he <;> rw [h] <;> rfl

/-- The diagnostics of a run: a failed build or submit is reported with its
code, and the only codes ever printed are those of a failed `CreateIoRing`,
`BuildIoRingReadFile` or `SubmitIoRing`. -/
theorem run_diagnostics (p fuel : Nat) (os : Outcomes) (hp : p ∣ 512) (hf : 512 / p < fuel) :
    ∃ t, IoRingKernelBase p fuel os = some t ∧
      ((SUCCEEDED os.createResult = false →
          Event.printf "Failed creating IO ring handle: 0x%x\n"
            [PrintfArg.hresult os.createResult] ∈ t)
        ∧ (os.buffer ≠ 0 → SUCCEEDED os.buildResult = false →
            Event.printf "Failed building IO ring read file structure: 0x%x\n"
              [PrintfArg.hresult os.buildResult] ∈ t)
        ∧ (os.buffer ≠ 0 → SUCCEEDED os.buildResult = true →
            SUCCEEDED os.submitResult = false →
            Event.printf "Failed submitting IO ring: 0x%x\n"
              [PrintfArg.hresult os.submitResult] ∈ t)
        ∧ (∀ e ∈ t, ∀ hr ∈ e.printedHresults,
            (hr = os.createResult ∧ SUCCEEDED os.createResult = false)
            ∨ (hr = os.buildResult ∧ SUCCEEDED os.buildResult = false)
            ∨ (hr = os.submitResult ∧ SUCCEEDED os.submitResult = false))) := by
  apply run_cases _ p fuel os hp hf
  all_goals
    intros
    refine ⟨?_, ?_, ?_, ?_⟩
  all_goals
    first
    | (intro h; simp only [List.mem_append, create_warning_mem_acquire os h, true_or])
    | (simp only [List.forall_mem_append, List.forall_mem_cons, List.forall_mem_singleton]
       and_intros
       all_goals
         first
         | exact fun e he hr hhr => Or.inl (printedHresults_acquire os e he hr hhr)
         | (intro e he hr hhr
            first
            | (rw [printedHresults_exitLabel os _ _ _ e he] at hhr; cases hhr)
            | (rw [printedHresults_iterations _ _ _ _ e he] at hhr; cases hhr))
         | (intro hr hhr; simp_all [Event.printedHresults, buildCall, submitCall]))
    | (intros; simp_all)

theorem filterMap_protocolStep_acquire (os : Outcomes) :
    (acquire os).filterMap protocolStep = [0] := by
  simp only [acquire]
  split_ifs <;> rfl

theorem filterMap_protocolStep_exitLabel (os : Outcomes) (handle hFile buffer : Nat) :
    (exitLabel os handle hFile buffer).filterMap protocolStep
      = if handle ≠ 0 then [5] else [] := by
  simp only [exitLabel]
  split_ifs <;> rfl

theorem filterMap_protocolStep_iterations (p : Nat) (memory : Nat → Nat) (b n : Nat) :
    (iterations p memory b n).filterMap protocolStep = List.replicate n 4 := by
  induction n with
  | zero => rfl
  | succ n ih =>
    have hsplit : iterations p memory b (n + 1)
        = iterations p memory b n ++ iteration p memory (b + n * p) := by
      simp [iterations, List.range_succ, List.flatMap_append]
    rw [hsplit, List.filterMap_append, ih, List.replicate_succ']
    rfl

/-- The protocol steps of a run in which the build and the submit succeed. -/
theorem run_steps (p fuel : Nat) (os : Outcomes) (hp : p ∣ 512) (hf : 512 / p < fuel)
    (hbuf : os.buffer ≠ 0) (hbuild : SUCCEEDED os.buildResult = true)
    (hsubmit : SUCCEEDED os.submitResult = true) :
    ∃ t, IoRingKernelBase p fuel os = some t ∧
      t.filterMap protocolStep
        = [0, 1, 2] ++ List.replicate (if os.buffer + 512 < 2 ^ 64 then 512 / p else 0) 4
          ++ (if os.handle ≠ 0 then [5] else []) := by
  apply run_cases _ p fuel os hp hf
  · intro h
    exact absurd h hbuf
  · intro _ h
    rw [hbuild] at h
    cases h
  · intro _ _ h
    rw [hsubmit] at h
    cases h
  · intro _ _ _ hw
    simp only [List.filterMap_append, filterMap_protocolStep_acquire,
      filterMap_protocolStep_exitLabel, filterMap_protocolStep_iterations, if_pos hw]
    have h1 : List.filterMap protocolStep
        [buildCall os, submitCall os, Event.printf "Data from file:\n" []] = [1, 2] := rfl
    have h2 : List.filterMap protocolStep [Event.printf "\n" []] = [] := rfl
    rw [h1, h2, List.append_nil]
    rfl
  · intro _ _ _ hw
    simp only [List.filterMap_append, filterMap_protocolStep_acquire,
      filterMap_protocolStep_exitLabel, if_neg hw]
    rfl

theorem hexValue_hexChar (d : Nat) (h : d < 16) : hexValue (hexChar d) = d := by
  interval_cases d <;> rfl

theorem toHex_small (n : Nat) (h : n < 16) : toHex n = [hexChar n] := by
  rw [toHex, if_pos h]

theorem toHex_large (n : Nat) (h : ¬ n < 16) :
    toHex n = toHex (n / 16) ++ [hexChar (n % 16)] := by
  rw [toHex, if_neg h]

theorem toHex_length_pos (n : Nat) : 0 < (toHex n).length := by
  by_cases h : n < 16
  · rw [toHex_small n h]
    exact Nat.one_pos
  · rw [toHex_large n h, List.length_append]
    exact Nat.lt_of_lt_of_le Nat.one_pos (Nat.le_add_left _ _)

/-- Zero-padding to width `k + 2` pads the leading digits to width `k + 1`. -/
theorem pad_step (k n : Nat) :
    List.replicate (k + 2 - (toHex n).length) '0' ++ toHex n
      = (List.replicate (k + 1 - (toHex (n / 16)).length) '0' ++ toHex (n / 16))
          ++ [hexChar (n % 16)] := by
  by_cases h : n < 16
  · have h0 : n / 16 = 0 := by omega
    have hm : n % 16 = n := by omega
    rw [toHex_small n h, h0, hm, toHex_small 0 (by norm_num)]
    have : hexChar 0 = '0' := rfl
    simp [this, ← List.replicate_succ']
  · have hpos := toHex_length_pos (n / 16)
    rw [toHex_large n h, List.length_append, List.length_singleton, ← List.append_assoc]
    congr 3
    omega

theorem format08x_digits (u : Nat) (h : u < 2 ^ 32) :
    format08x u
      = [hexChar (u / 16 ^ 7 % 16), hexChar (u / 16 ^ 6 % 16), hexChar (u / 16 ^ 5 % 16),
          hexChar (u / 16 ^ 4 % 16), hexChar (u / 16 ^ 3 % 16), hexChar (u / 16 ^ 2 % 16),
          hexChar (u / 16 % 16), hexChar (u % 16)] := by
  have hsmall : u / 16 / 16 / 16 / 16 / 16 / 16 / 16 < 16 := by omega
  have hmod : u / 16 / 16 / 16 / 16 / 16 / 16 / 16 % 16 = u / 16 / 16 / 16 / 16 / 16 / 16 / 16 := by
    omega
  rw [format08x, pad_step 6, pad_step 5, pad_step 4, pad_step 3, pad_step 2, pad_step 1,
    pad_step 0, toHex_small _ hsmall]
  simp only [Nat.div_div_eq_div_mul]
  norm_num
  congr 1
  omega

theorem parseHex_format08x (u : Nat) (h : u < 2 ^ 32) : parseHex (format08x u) = u := by
  rw [format08x_digits u h]
  simp only [parseHex, List.foldl]
  rw [hexValue_hexChar _ (Nat.mod_lt _ (by norm_num)),
    hexValue_hexChar _ (Nat.mod_lt _ (by norm_num)),
    hexValue_hexChar _ (Nat.mod_lt _ (by norm_num)),
    hexValue_hexChar _ (Nat.mod_lt _ (by norm_num)),
    hexValue_hexChar _ (Nat.mod_lt _ (by norm_num)),
    hexValue_hexChar _ (Nat.mod_lt _ (by norm_num)),
    hexValue_hexChar _ (Nat.mod_lt _ (by norm_num)),
    hexValue_hexChar _ (Nat.mod_lt _ (by norm_num))]
  norm_num
  omega

theorem toUInt32_lt (hr : Int) : toUInt32 hr < 2 ^ 32 := by
  unfold toUInt32
  omega

theorem format08x_length (u : Nat) (h : u < 2 ^ 32) : (format08x u).length = 8 := by
  rw [format08x_digits u h]
  rfl

/-- The characters of the message: the fixed text, the eight digits, the separator, the
system message. -/
theorem GetMessageForHresult_data (errorMessage : Int → String) (hr : Int) :
    (GetMessageForHresult errorMessage hr).data
      = ['E', 'r', 'r', 'o', 'r', ' ', '0', 'x'] ++ format08x (toUInt32 hr)
          ++ [':', ' '] ++ (errorMessage hr).data := by
  simp only [GetMessageForHresult, String.data_append]

theorem GetMessageForHresult_digits (errorMessage : Int → String) (hr : Int) :
    ((GetMessageForHresult errorMessage hr).data.drop 8).take 8 = format08x (toUInt32 hr) := by
  rw [GetMessageForHresult_data]
  have hlen := format08x_length (toUInt32 hr) (toUInt32_lt hr)
  simp only [List.append_assoc, List.cons_append, List.nil_append, List.drop_succ_cons,
    List.drop_zero]
  rw [List.take_append_of_le_length (by omega), List.take_of_length_le (by omega)]

theorem iterations_succ (p : Nat) (memory : Nat → Nat) (b n : Nat) :
    iterations p memory b (n + 1)
      = iterations p memory b n ++ iteration p memory (b + n * p) := by
  simp [iterations, List.range_succ, List.flatMap_append]

theorem iterations_length (p : Nat) (memory : Nat → Nat) (b n : Nat) :
    (iterations p memory b n).length = 2 * n := by
  induction n with
  | zero => rfl
  | succ n ih =>
    rw [iterations_succ, List.length_append, ih]
    simp only [iteration, List.length_cons, List.length_nil]
    omega

/-! ## The claims -/

/-- C1. On every run `CloseIoRing` is called at most once, no
`BuildIoRingReadFile` or `SubmitIoRing` call follows it, and when `CreateIoRing`
succeeded with a non-null handle it is called exactly once, on that handle. -/
theorem closeIoRing_at_most_once_and_last (p fuel : Nat) (os : Outcomes)
    (hp : p ∣ 512) (hf : 512 / p < fuel) :
    ∃ t, IoRingKernelBase p fuel os = some t ∧
      ((t.filter Event.isCloseIoRing).length ≤ 1
        ∧ t.Pairwise (fun a b => a.isCloseIoRing = true →
            b.isBuild = false ∧ b.isSubmit = false ∧ b.isCloseIoRing = false)
        ∧ (SUCCEEDED os.createResult = true → os.handle ≠ 0 →
            t.filter Event.isCloseIoRing = [Event.CloseIoRing os.handle os.closeResult])) := by
  have key : ∀ (body : List Event) (fin : Nat), (∀ e ∈ body, e.isCloseIoRing = false) →
      (((body ++ exitLabel os os.handle os.hFile fin).filter Event.isCloseIoRing).length ≤ 1
        ∧ (body ++ exitLabel os os.handle os.hFile fin).Pairwise (fun a b =>
            a.isCloseIoRing = true →
              b.isBuild = false ∧ b.isSubmit = false ∧ b.isCloseIoRing = false)
        ∧ (SUCCEEDED os.createResult = true → os.handle ≠ 0 →
            (body ++ exitLabel os os.handle os.hFile fin).filter Event.isCloseIoRing
              = [Event.CloseIoRing os.handle os.closeResult])) := by
    intro body fin hbody
    obtain ⟨hfilter, hpair⟩ := close_last_of_body os body os.handle os.hFile fin hbody
    refine ⟨?_, hpair, ?_⟩
    · rw [hfilter]
      split_ifs <;> simp
    · intro _ hh
      rw [hfilter, if_pos hh]
  apply run_cases _ p fuel os hp hf
  all_goals
    intros
    apply key
    simp only [List.forall_mem_append, List.forall_mem_cons, List.forall_mem_singleton]
    and_intros
  all_goals
    first
    | exact acquire_not_close os
    | exact iterations_not_close _ _ _ _
    | rfl
    | (intro e he; cases he)

/-- C1 at the run in which every call succeeds, with 8-byte pointers. -/
theorem closeIoRing_at_most_once_and_last_witness :
    (8 ∣ 512 ∧ 512 / 8 < 65)
    ∧ ∃ t, IoRingKernelBase 8 65 allSucceed = some t ∧
      ((t.filter Event.isCloseIoRing).length ≤ 1
        ∧ t.Pairwise (fun a b => a.isCloseIoRing = true →
            b.isBuild = false ∧ b.isSubmit = false ∧ b.isCloseIoRing = false)
        ∧ (SUCCEEDED allSucceed.createResult = true → allSucceed.handle ≠ 0 →
            t.filter Event.isCloseIoRing
              = [Event.CloseIoRing allSucceed.handle allSucceed.closeResult])) :=
  ⟨by decide, closeIoRing_at_most_once_and_last 8 65 allSucceed (by decide) (by decide)⟩

/-- C2 (the code at the failing inputs). After a failed `CreateFile` the run
calls `CloseHandle` on `INVALID_HANDLE_VALUE`, and after a failed `CreateIoRing`
it calls `CloseIoRing` on the value the uninitialised `handle` holds. -/
theorem exit_releases_unacquired_handles :
    (∃ t, IoRingKernelBase 8 65 openFails = some t ∧
      openFails.hFile = INVALID_HANDLE_VALUE ∧
      t.filter Event.isCloseHandle = [Event.CloseHandle INVALID_HANDLE_VALUE true])
    ∧ (∃ t, IoRingKernelBase 8 65 createFails = some t ∧
      SUCCEEDED createFails.createResult = false ∧
      t.filter Event.isCloseIoRing = [Event.CloseIoRing 0xcccccccccccccccc 0]) := by
  constructor
  · obtain ⟨t, ht, -, -, -, -, -, -, hch, -⟩ := run_calls 8 65 openFails (by decide) (by decide)
    exact ⟨t, ht, rfl, by rw [hch]; rfl⟩
  · obtain ⟨t, ht, -, -, -, -, -, hci, -⟩ := run_calls 8 65 createFails (by decide) (by decide)
    exact ⟨t, ht, by decide, by rw [hci]; rfl⟩

/-- C3. When every call succeeds, the ring is created with queue sizes 1 and 1
and both flag sets `NONE`, the buffer is allocated with 512 bytes, the read is
built with length 512 and offset 0 against that buffer, and the submit waits for
1 operation with a timeout of 10000 ms. -/
theorem success_path_arguments (p fuel : Nat) (os : Outcomes)
    (hp : p ∣ 512) (hf : 512 / p < fuel)
    (_hcreate : SUCCEEDED os.createResult = true) (_hopen : os.hFile ≠ INVALID_HANDLE_VALUE)
    (halloc : os.buffer ≠ 0) (hbuild : SUCCEEDED os.buildResult = true)
    (_hsubmit : SUCCEEDED os.submitResult = true) :
    ∃ t, IoRingKernelBase p fuel os = some t ∧
      (t.filter Event.isCreateIoRing
          = [Event.CreateIoRing Win32Const.IORING_VERSION_1
              ⟨Win32Const.IORING_CREATE_REQUIRED_FLAGS_NONE,
                Win32Const.IORING_CREATE_ADVISORY_FLAGS_NONE⟩ 1 1 os.createResult os.handle]
        ∧ t.filter Event.isVirtualAlloc
            = [Event.VirtualAlloc 0 512 Win32Const.MEM_COMMIT Win32Const.PAGE_READWRITE
                os.buffer]
        ∧ t.filter Event.isBuild
            = [Event.BuildIoRingReadFile os.handle ⟨Win32Const.IORING_REF_RAW, os.hFile⟩
                ⟨Win32Const.IORING_REF_RAW, os.buffer⟩ 512 0 0 Win32Const.IOSQE_FLAGS_NONE
                os.buildResult]
        ∧ t.filter Event.isSubmit
            = [Event.SubmitIoRing os.handle 1 10000 os.submitResult os.submittedEntries]) := by
  obtain ⟨t, ht, hcr, hva, hbu, hsu, -⟩ := run_calls p fuel os hp hf
  refine ⟨t, ht, hcr, hva, ?_, ?_⟩
  · rw [hbu, if_pos halloc]
    rfl
  · rw [hsu, if_pos ⟨halloc, hbuild⟩]
    rfl

/-- C3 at the run in which every call succeeds, with 8-byte pointers. -/
theorem success_path_arguments_witness :
    (8 ∣ 512 ∧ 512 / 8 < 65 ∧ SUCCEEDED allSucceed.createResult = true
      ∧ allSucceed.hFile ≠ INVALID_HANDLE_VALUE ∧ allSucceed.buffer ≠ 0
      ∧ SUCCEEDED allSucceed.buildResult = true ∧ SUCCEEDED allSucceed.submitResult = true)
    ∧ ∃ t, IoRingKernelBase 8 65 allSucceed = some t ∧
      (t.filter Event.isCreateIoRing
          = [Event.CreateIoRing Win32Const.IORING_VERSION_1
              ⟨Win32Const.IORING_CREATE_REQUIRED_FLAGS_NONE,
                Win32Const.IORING_CREATE_ADVISORY_FLAGS_NONE⟩ 1 1 allSucceed.createResult
              allSucceed.handle]
        ∧ t.filter Event.isVirtualAlloc
            = [Event.VirtualAlloc 0 512 Win32Const.MEM_COMMIT Win32Const.PAGE_READWRITE
                allSucceed.buffer]
        ∧ t.filter Event.isBuild
            = [Event.BuildIoRingReadFile allSucceed.handle
                ⟨Win32Const.IORING_REF_RAW, allSucceed.hFile⟩
                ⟨Win32Const.IORING_REF_RAW, allSucceed.buffer⟩ 512 0 0
                Win32Const.IOSQE_FLAGS_NONE allSucceed.buildResult]
        ∧ t.filter Event.isSubmit
            = [Event.SubmitIoRing allSucceed.handle 1 10000 allSucceed.submitResult
                allSucceed.submittedEntries]) :=
  ⟨by decide, success_path_arguments 8 65 allSucceed (by decide) (by decide) (by decide)
    (by decide) (by decide) (by decide) (by decide)⟩

/-- C4 (as stated, refuted). When every call succeeds, the protocol steps of the
run are open, build, submit, 64 reads of the buffer, close: the reap step (3)
does not occur, although the buffer is read (4) and the ring closed (5). -/
theorem no_completion_collected :
    ∃ t, IoRingKernelBase 8 65 allSucceed = some t ∧
      t.filterMap protocolStep = [0, 1, 2] ++ List.replicate 64 4 ++ [5]
      ∧ 3 ∉ t.filterMap protocolStep ∧ 4 ∈ t.filterMap protocolStep
      ∧ 5 ∈ t.filterMap protocolStep := by
  obtain ⟨t, ht, hst⟩ := run_steps 8 65 allSucceed (by decide) (by decide) (by decide)
    (by decide) (by decide)
  have hst2 : t.filterMap protocolStep = [0, 1, 2] ++ List.replicate 64 4 ++ [5] := by
    rw [hst]
    rfl
  refine ⟨t, ht, hst2, ?_, ?_, ?_⟩ <;> rw [hst2] <;> decide

/-- C4 (amended). When every call succeeds, the run follows the order
open, build, submit, reads of the buffer, close, and collects no completion
entry: the buffer is read right after the submit. -/
theorem success_path_order (p fuel : Nat) (os : Outcomes)
    (hp : p ∣ 512) (hf : 512 / p < fuel)
    (_hcreate : SUCCEEDED os.createResult = true) (hhandle : os.handle ≠ 0)
    (_hopen : os.hFile ≠ INVALID_HANDLE_VALUE)
    (halloc : os.buffer ≠ 0) (hbuild : SUCCEEDED os.buildResult = true)
    (hsubmit : SUCCEEDED os.submitResult = true) :
    ∃ t, IoRingKernelBase p fuel os = some t ∧
      t.filterMap protocolStep
        = [0, 1, 2] ++ List.replicate (if os.buffer + 512 < 2 ^ 64 then 512 / p else 0) 4
          ++ [5] := by
  obtain ⟨t, ht, hst⟩ := run_steps p fuel os hp hf halloc hbuild hsubmit
  exact ⟨t, ht, by rw [hst, if_pos hhandle]⟩

/-- C4 (amended) at the run in which every call succeeds, with 8-byte pointers. -/
theorem success_path_order_witness :
    (8 ∣ 512 ∧ 512 / 8 < 65 ∧ SUCCEEDED allSucceed.createResult = true
      ∧ allSucceed.handle ≠ 0 ∧ allSucceed.hFile ≠ INVALID_HANDLE_VALUE
      ∧ allSucceed.buffer ≠ 0 ∧ SUCCEEDED allSucceed.buildResult = true
      ∧ SUCCEEDED allSucceed.submitResult = true)
    ∧ ∃ t, IoRingKernelBase 8 65 allSucceed = some t ∧
      t.filterMap protocolStep
        = [0, 1, 2]
          ++ List.replicate (if allSucceed.buffer + 512 < 2 ^ 64 then 512 / 8 else 0) 4
          ++ [5] :=
  ⟨by decide, success_path_order 8 65 allSucceed (by decide) (by decide) (by decide) (by decide)
    (by decide) (by decide) (by decide) (by decide)⟩

/-- C5 (as stated, refuted). When `CloseIoRing` fails with `E_FAIL` in an
otherwise successful run, the call is made, its result is a failure code, and
no `printf` of the run carries that code. -/
theorem closeIoRing_failure_not_reported :
    ∃ t, IoRingKernelBase 8 65 closeFails = some t ∧
      Event.CloseIoRing 0x1d8 (-2147467259) ∈ t ∧
      SUCCEEDED (-2147467259) = false ∧
      ∀ e ∈ t, (-2147467259 : Int) ∉ e.printedHresults := by
  obtain ⟨t, ht, -, -, -, -, -, hci, -⟩ := run_calls 8 65 closeFails (by decide) (by decide)
  obtain ⟨t2, ht2, -, -, -, hpr⟩ := run_diagnostics 8 65 closeFails (by decide) (by decide)
  obtain rfl : t = t2 := Option.some.inj (ht.symm.trans ht2)
  refine ⟨t, ht, ?_, by decide, ?_⟩
  · have : Event.CloseIoRing 0x1d8 (-2147467259) ∈ t.filter Event.isCloseIoRing := by
      rw [hci]
      exact List.mem_singleton.2 rfl
    exact (List.mem_filter.1 this).1
  · intro e he hmem
    rcases hpr e he _ hmem with ⟨h, -⟩ | ⟨h, -⟩ | ⟨h, -⟩ <;> exact absurd h (by decide)

/-- C5 (amended). Every `CreateIoRing`, `BuildIoRingReadFile` and `SubmitIoRing`
call of a run that returns a failure code is followed by a `printf` that carries
that code; no other `HRESULT` is ever printed, so the result of `CloseIoRing` is
discarded. -/
theorem create_build_submit_failures_reported (p fuel : Nat) (os : Outcomes)
    (hp : p ∣ 512) (hf : 512 / p < fuel) :
    ∃ t, IoRingKernelBase p fuel os = some t ∧
      ((∀ v f s c r h, Event.CreateIoRing v f s c r h ∈ t → SUCCEEDED r = false →
          Event.printf "Failed creating IO ring handle: 0x%x\n" [PrintfArg.hresult r] ∈ t)
        ∧ (∀ h fr dr n off ud fl r, Event.BuildIoRingReadFile h fr dr n off ud fl r ∈ t →
            SUCCEEDED r = false →
            Event.printf "Failed building IO ring read file structure: 0x%x\n"
              [PrintfArg.hresult r] ∈ t)
        ∧ (∀ h w ms r n, Event.SubmitIoRing h w ms r n ∈ t → SUCCEEDED r = false →
            Event.printf "Failed submitting IO ring: 0x%x\n" [PrintfArg.hresult r] ∈ t)
        ∧ (∀ e ∈ t, ∀ hr ∈ e.printedHresults,
            (hr = os.createResult ∧ SUCCEEDED os.createResult = false)
            ∨ (hr = os.buildResult ∧ SUCCEEDED os.buildResult = false)
            ∨ (hr = os.submitResult ∧ SUCCEEDED os.submitResult = false))) := by
  obtain ⟨t, ht, hcr, -, hbu, hsu, -⟩ := run_calls p fuel os hp hf
  obtain ⟨t2, ht2, hdc, hdb, hds, hpr⟩ := run_diagnostics p fuel os hp hf
  obtain rfl : t = t2 := Option.some.inj (ht.symm.trans ht2)
  refine ⟨t, ht, ?_, ?_, ?_, hpr⟩
  · intro v f s c r h hmem hfail
    have hfil : Event.CreateIoRing v f s c r h ∈ t.filter Event.isCreateIoRing :=
      List.mem_filter.2 ⟨hmem, rfl⟩
    rw [hcr, List.mem_singleton] at hfil
    simp only [Event.CreateIoRing.injEq] at hfil
    obtain ⟨-, -, -, -, rfl, -⟩ := hfil
    exact hdc hfail
  · intro h fr dr n off ud fl r hmem hfail
    have hfil : Event.BuildIoRingReadFile h fr dr n off ud fl r ∈ t.filter Event.isBuild :=
      List.mem_filter.2 ⟨hmem, rfl⟩
    rw [hbu] at hfil
    by_cases hb : os.buffer = 0
    · simp [hb] at hfil
    · rw [if_pos hb, List.mem_singleton] at hfil
      simp only [buildCall, Event.BuildIoRingReadFile.injEq] at hfil
      obtain ⟨-, -, -, -, -, -, -, rfl⟩ := hfil
      exact hdb hb hfail
  · intro h w ms r n hmem hfail
    have hfil : Event.SubmitIoRing h w ms r n ∈ t.filter Event.isSubmit :=
      List.mem_filter.2 ⟨hmem, rfl⟩
    rw [hsu] at hfil
    by_cases hc : os.buffer ≠ 0 ∧ SUCCEEDED os.buildResult = true
    · rw [if_pos hc, List.mem_singleton] at hfil
      simp only [submitCall, Event.SubmitIoRing.injEq] at hfil
      obtain ⟨-, -, -, rfl, -⟩ := hfil
      exact hds hc.1 hc.2 hfail
    · rw [if_neg hc] at hfil
      cases hfil

/-- C5 (amended) at the run in which `CreateIoRing` fails, with 8-byte pointers. -/
theorem create_build_submit_failures_reported_witness :
    (8 ∣ 512 ∧ 512 / 8 < 65)
    ∧ ∃ t, IoRingKernelBase 8 65 createFails = some t ∧
      ((∀ v f s c r h, Event.CreateIoRing v f s c r h ∈ t → SUCCEEDED r = false →
          Event.printf "Failed creating IO ring handle: 0x%x\n" [PrintfArg.hresult r] ∈ t)
        ∧ (∀ h fr dr n off ud fl r, Event.BuildIoRingReadFile h fr dr n off ud fl r ∈ t →
            SUCCEEDED r = false →
            Event.printf "Failed building IO ring read file structure: 0x%x\n"
              [PrintfArg.hresult r] ∈ t)
        ∧ (∀ h w ms r n, Event.SubmitIoRing h w ms r n ∈ t → SUCCEEDED r = false →
            Event.printf "Failed submitting IO ring: 0x%x\n" [PrintfArg.hresult r] ∈ t)
        ∧ (∀ e ∈ t, ∀ hr ∈ e.printedHresults,
            (hr = createFails.createResult ∧ SUCCEEDED createFails.createResult = false)
            ∨ (hr = createFails.buildResult ∧ SUCCEEDED createFails.buildResult = false)
            ∨ (hr = createFails.submitResult ∧ SUCCEEDED createFails.submitResult = false))) :=
  ⟨by decide, create_build_submit_failures_reported 8 65 createFails (by decide) (by decide)⟩

/-- C6 (the code at the failing input). After a failed `CreateIoRing` the run
prints the failure and still calls `BuildIoRingReadFile`, passing the value the
uninitialised `handle` variable holds instead of a handle that was opened. -/
theorem build_called_after_failed_create :
    ∃ t, IoRingKernelBase 8 65 createFails = some t ∧
      SUCCEEDED createFails.createResult = false ∧
      t.filter Event.isBuild
        = [Event.BuildIoRingReadFile 0xcccccccccccccccc ⟨Win32Const.IORING_REF_RAW, 0x1dc⟩
            ⟨Win32Const.IORING_REF_RAW, 0x10000⟩ 512 0 0 Win32Const.IOSQE_FLAGS_NONE 0] := by
  obtain ⟨t, ht, -, -, hbu, -⟩ := run_calls 8 65 createFails (by decide) (by decide)
  exact ⟨t, ht, by decide, by rw [hbu]; rfl⟩

/-- C7. A failed ring creation or file open only prints a warning; the build is
attempted exactly when the allocation succeeded, the submit exactly when the
build also succeeded, and the data is printed exactly when the submit also succeeded. -/
theorem only_alloc_build_submit_failures_skip (p fuel : Nat) (os : Outcomes)
    (hp : p ∣ 512) (hf : 512 / p < fuel) :
    ∃ t, IoRingKernelBase p fuel os = some t ∧
      ((t.filter Event.isBuild = if os.buffer ≠ 0 then [buildCall os] else [])
        ∧ (t.filter Event.isSubmit
            = if os.buffer ≠ 0 ∧ SUCCEEDED os.buildResult = true then [submitCall os] else [])
        ∧ (Event.printf "Data from file:\n" [] ∈ t ↔
            (os.buffer ≠ 0 ∧ SUCCEEDED os.buildResult = true
              ∧ SUCCEEDED os.submitResult = true))
        ∧ (¬ (os.buffer ≠ 0 ∧ SUCCEEDED os.buildResult = true
              ∧ SUCCEEDED os.submitResult = true) → t.filter Event.isLoad = [])
        ∧ (SUCCEEDED os.createResult = false →
            Event.printf "Failed creating IO ring handle: 0x%x\n"
              [PrintfArg.hresult os.createResult] ∈ t)
        ∧ (os.hFile = INVALID_HANDLE_VALUE →
            Event.printf "Failed opening file handle: 0x%x\n"
              [PrintfArg.dword os.lastError] ∈ t)) := by
  apply run_cases _ p fuel os hp hf
  all_goals
    intros
    simp only [List.filter_append, List.mem_append, filter_isBuild_acquire,
      filter_isSubmit_acquire, filter_isLoad_acquire, filter_isBuild_exitLabel,
      filter_isSubmit_exitLabel, filter_isLoad_exitLabel, filter_isBuild_iterations,
      filter_isSubmit_iterations, header_not_mem_iterations, header_not_mem_acquire,
      header_not_mem_exitLabel, List.append_nil, List.nil_append, false_or, or_false]
    refine ⟨?_, ?_, ?_, ?_, ?_, ?_⟩
  all_goals
    first
    | (intro h; simp only [create_warning_mem_acquire os h, true_or])
    | (intro h; simp only [open_warning_mem_acquire os h, true_or])
    | simp [buildCall, submitCall, Event.isBuild, Event.isSubmit, Event.isLoad, *]

/-- C7 at the run in which `CreateIoRing` fails, with 8-byte pointers. -/
theorem only_alloc_build_submit_failures_skip_witness :
    (8 ∣ 512 ∧ 512 / 8 < 65)
    ∧ ∃ t, IoRingKernelBase 8 65 createFails = some t ∧
      ((t.filter Event.isBuild = if createFails.buffer ≠ 0 then [buildCall createFails] else [])
        ∧ (t.filter Event.isSubmit
            = if createFails.buffer ≠ 0 ∧ SUCCEEDED createFails.buildResult = true
              then [submitCall createFails] else [])
        ∧ (Event.printf "Data from file:\n" [] ∈ t ↔
            (createFails.buffer ≠ 0 ∧ SUCCEEDED createFails.buildResult = true
              ∧ SUCCEEDED createFails.submitResult = true))
        ∧ (¬ (createFails.buffer ≠ 0 ∧ SUCCEEDED createFails.buildResult = true
              ∧ SUCCEEDED createFails.submitResult = true) → t.filter Event.isLoad = [])
        ∧ (SUCCEEDED createFails.createResult = false →
            Event.printf "Failed creating IO ring handle: 0x%x\n"
              [PrintfArg.hresult createFails.createResult] ∈ t)
        ∧ (createFails.hFile = INVALID_HANDLE_VALUE →
            Event.printf "Failed opening file handle: 0x%x\n"
              [PrintfArg.dword createFails.lastError] ∈ t)) :=
  ⟨by decide, only_alloc_build_submit_failures_skip 8 65 createFails (by decide) (by decide)⟩

/-- C8 (the code at the failing input). When every call succeeds and
`VirtualAlloc` returned `0x10000`, the only `VirtualFree` call of the run passes
`0x10200`, the value of `buffer` once the loop has advanced it past the block. -/
theorem virtualFree_after_loop_not_base :
    ∃ t, IoRingKernelBase 8 65 allSucceed = some t ∧
      t.filter Event.isVirtualAlloc
        = [Event.VirtualAlloc 0 512 Win32Const.MEM_COMMIT Win32Const.PAGE_READWRITE 0x10000]
      ∧ t.filter Event.isVirtualFree
        = [Event.VirtualFree 0x10200 0 Win32Const.MEM_RELEASE true] := by
  obtain ⟨t, ht, -, hva, -, -, -, -, -, hvf⟩ := run_calls 8 65 allSucceed (by decide) (by decide)
  exact ⟨t, ht, by rw [hva]; rfl, by rw [hvf]; rfl⟩

/-- C9. For a buffer at `b` that ends below `2 ^ 64` and a pointer size `p`
dividing 512, the data-printing loop terminates after exactly `512 / p`
iterations, the `i`-th of which reads the `p` bytes at `b + i * p`; every byte
read lies in `[b, b + 512)`. -/
theorem printLoop_terminates_in_buffer (p fuel b : Nat) (memory : Nat → Nat)
    (hp : p ∣ 512) (hb : b + 512 < 2 ^ 64) (hf : 512 / p < fuel) :
    ∃ events, printLoop p memory ((b + sizeToRead) % 2 ^ 64) fuel b = some (events, b + 512)
      ∧ events = (List.range (512 / p)).flatMap (fun i =>
          [Event.load (b + i * p) p (memory (b + i * p)),
            Event.printf "%p " [PrintfArg.pointer (memory (b + i * p))]])
      ∧ events.length = 2 * (512 / p)
      ∧ ∀ address size value, Event.load address size value ∈ events →
          size = p ∧ b ≤ address ∧ address + size ≤ b + 512 := by
  refine ⟨_, printLoop_buffer p memory fuel b hp hf hb, rfl, iterations_length _ _ _ _, ?_⟩
  · intro address size value hmem
    obtain ⟨i, hi, h | h⟩ := (mem_iterations p memory b (512 / p) _).1 hmem
    · simp only [Event.load.injEq] at h
      rw [h.1, h.2.1]
      have h1 : (i + 1) * p ≤ 512 / p * p := Nat.mul_le_mul_right p hi
      rw [Nat.div_mul_cancel hp] at h1
      have h2 : (i + 1) * p = i * p + p := by ring
      refine ⟨rfl, Nat.le_add_right _ _, ?_⟩
      omega
    · cases h

/-- C9 at a zero-filled buffer at `0x10000`, with 8-byte pointers. -/
theorem printLoop_terminates_in_buffer_witness :
    (8 ∣ 512 ∧ 0x10000 + 512 < 2 ^ 64 ∧ 512 / 8 < 65)
    ∧ ∃ events, printLoop 8 (fun _ => 0) ((0x10000 + sizeToRead) % 2 ^ 64) 65 0x10000
        = some (events, 0x10000 + 512)
      ∧ events = (List.range (512 / 8)).flatMap (fun i =>
          [Event.load (0x10000 + i * 8) 8 ((fun _ => 0) (0x10000 + i * 8)),
            Event.printf "%p " [PrintfArg.pointer ((fun _ => 0) (0x10000 + i * 8))]])
      ∧ events.length = 2 * (512 / 8)
      ∧ ∀ address size value, Event.load address size value ∈ events →
          size = 8 ∧ 0x10000 ≤ address ∧ address + size ≤ 0x10000 + 512 :=
  ⟨by decide, printLoop_terminates_in_buffer 8 65 0x10000 (fun _ => 0) (by decide) (by decide)
    (by decide)⟩

/-- C10. For every 32-bit `hr` the message is `Error 0x`, the eight zero-padded
lower-case hexadecimal digits of `hr` as an unsigned 32-bit value, `: ` and the
system message; `hr` is recovered from characters 8 to 15, and two different
codes never give the same string. -/
theorem getMessageForHresult_carries_code (errorMessage : Int → String) (hr : Int)
    (hlo : -2 ^ 31 ≤ hr) (hhi : hr < 2 ^ 31) :
    GetMessageForHresult errorMessage hr
        = "Error 0x"
          ++ String.mk
              [hexChar (toUInt32 hr / 16 ^ 7 % 16), hexChar (toUInt32 hr / 16 ^ 6 % 16),
                hexChar (toUInt32 hr / 16 ^ 5 % 16), hexChar (toUInt32 hr / 16 ^ 4 % 16),
                hexChar (toUInt32 hr / 16 ^ 3 % 16), hexChar (toUInt32 hr / 16 ^ 2 % 16),
                hexChar (toUInt32 hr / 16 % 16), hexChar (toUInt32 hr % 16)]
          ++ ": " ++ errorMessage hr
      ∧ parseHex (((GetMessageForHresult errorMessage hr).data.drop 8).take 8) = toUInt32 hr
      ∧ (toUInt32 hr : Int) = hr % 2 ^ 32
      ∧ ∀ hr2 : Int, -2 ^ 31 ≤ hr2 → hr2 < 2 ^ 31 →
          GetMessageForHresult errorMessage hr2 = GetMessageForHresult errorMessage hr →
          hr2 = hr := by
  refine ⟨?_, ?_, ?_, ?_⟩
  · rw [GetMessageForHresult, format08x_digits _ (toUInt32_lt hr)]
  · rw [GetMessageForHresult_digits, parseHex_format08x _ (toUInt32_lt hr)]
  · unfold toUInt32
    omega
  · intro hr2 hlo2 hhi2 heq
    have h1 := parseHex_format08x _ (toUInt32_lt hr)
    have h2 := parseHex_format08x _ (toUInt32_lt hr2)
    rw [← GetMessageForHresult_digits errorMessage hr] at h1
    rw [← GetMessageForHresult_digits errorMessage hr2, heq, h1] at h2
    unfold toUInt32 at h2
    omega

/-- C10 at `E_FAIL` (`0x80004005`). -/
theorem getMessageForHresult_carries_code_witness :
    (-2 ^ 31 ≤ (-2147467259 : Int) ∧ (-2147467259 : Int) < 2 ^ 31)
    ∧ (GetMessageForHresult (fun _ => "Unspecified error") (-2147467259)
        = "Error 0x"
          ++ String.mk
              [hexChar (toUInt32 (-2147467259) / 16 ^ 7 % 16),
                hexChar (toUInt32 (-2147467259) / 16 ^ 6 % 16),
                hexChar (toUInt32 (-2147467259) / 16 ^ 5 % 16),
                hexChar (toUInt32 (-2147467259) / 16 ^ 4 % 16),
                hexChar (toUInt32 (-2147467259) / 16 ^ 3 % 16),
                hexChar (toUInt32 (-2147467259) / 16 ^ 2 % 16),
                hexChar (toUInt32 (-2147467259) / 16 % 16),
                hexChar (toUInt32 (-2147467259) % 16)]
          ++ ": " ++ "Unspecified error"
      ∧ parseHex (((GetMessageForHresult (fun _ => "Unspecified error")
            (-2147467259)).data.drop 8).take 8) = toUInt32 (-2147467259)
      ∧ (toUInt32 (-2147467259) : Int) = -2147467259 % 2 ^ 32
      ∧ ∀ hr2 : Int, -2 ^ 31 ≤ hr2 → hr2 < 2 ^ 31 →
          GetMessageForHresult (fun _ => "Unspecified error") hr2
            = GetMessageForHresult (fun _ => "Unspecified error") (-2147467259) →
          hr2 = -2147467259) :=
  ⟨by decide, getMessageForHresult_carries_code (fun _ => "Unspecified error") (-2147467259)
    (by decide) (by decide)⟩

end CPPRing
